import Mathlib

/-!
Shallow embedding of `derive_value_object` (src/src/value_object.rs) in Lean 4.

Type expressions (`syn::Type`, `syn::Path`) are modelled by their rendered
textual form (`String`), matching how the source itself compares them
(`format!("{}", internal_type.to_token_stream())`).  Token streams produced by
the `quote!` blocks are modelled as lists of generated units, one constructor
per `quote!` block, carrying exactly the values spliced into the block;
`TokenStream2::new()` is the empty list.  Fallible Rust code returning
`Result<_, darling::Error>` is modelled with an explicit result type that
additionally records Rust panics, because the source calls
`syn::Ident::new` which is documented to panic on strings that are not
legal identifiers.
-/

namespace DeriveValueObject

/-- A field of a struct (`syn::Field`): an optional name and the rendered
text of its declared type. -/
structure Field where
  name : Option String
  ty : String
deriving Repr, DecidableEq

/-- Model of `syn::Fields`: named fields, unnamed (tuple) fields, or a unit struct. -/
inductive Fields where
  | named (fields : List Field)
  | unnamed (fields : List Field)
  | unit
deriving Repr, DecidableEq

/-- Model of `syn::Data`: the internals of the derived item. -/
inductive Data where
  | struct_ (fields : Fields)
  | enum_
  | union_
deriving Repr, DecidableEq

/-- Model of `ValueObjectAttributes` as parsed by darling from the
`#[value_object(...)]` attribute (src/src/value_object.rs lines 9-26). -/
structure ValueObjectAttributes where
  error_type : String
  load_fn : String
  serde_derive : Option Bool
  serde_crate : Option String
  display_derive : Option Bool
  try_from_derive : Option Bool
  from_str_derive : Option Bool
deriving Repr, DecidableEq

/-- The `ValueObject` descriptor (src/src/value_object.rs lines 28-34):
the item's identifier, the attributes, the generic parameters (only
emptiness matters to the source, so each parameter is kept as its rendered
text) and the struct internals. -/
structure ValueObject where
  ident : String
  attributes : ValueObjectAttributes
  generics : List String
  struct_internals : Data
deriving Repr, DecidableEq

/-- One generated unit: one `quote!` block of the source, carrying exactly
the values spliced into that block. -/
inductive GenUnit where
  | serdeImpl (serde_crate : String) (ident : String) (load_fn : String)
      (internal_type : String)
  | displayImpl (ident : String)
  | tryFromImpl (internal_type : String) (error_type : String) (ident : String)
      (load_fn : String)
  | fromStrImpl (ident : String) (load_fn : String) (error_type : String)
      (internal_type : String)
deriving Repr, DecidableEq

/-- Result of a fallible generator call: an ordinary value, a
`darling::Error` (modelled by its message), or a Rust panic. -/
inductive GenResult (α : Type) where
  | ok (value : α)
  | error (msg : String)
  | panic (msg : String)
deriving Repr, DecidableEq

/-- Sequencing of fallible calls: the model of Rust's `?` operator together
with panic propagation. -/
def GenResult.bind {α β : Type} : GenResult α → (α → GenResult β) → GenResult β
  | .ok a, f => f a
  | .error e, _ => .error e
  | .panic m, _ => .panic m

/-- True exactly on `ok` results. -/
def GenResult.isOk {α : Type} : GenResult α → Bool
  | .ok _ => true
  | _ => false

/-- True exactly on `panic` results. -/
def GenResult.isPanic {α : Type} : GenResult α → Bool
  | .panic _ => true
  | _ => false

/-- ASCII fragment of `XID_Start` used by identifier validation. -/
def isXidStart (c : Char) : Bool := c.isAlpha

/-- ASCII fragment of `XID_Continue` used by identifier validation. -/
def isXidContinue (c : Char) : Bool := c.isAlphanum || c == '_'

/-- Validity check of `proc_macro2::Ident::new` (ASCII fragment): the string
must be non-empty, must not be `"_"` alone, its first character must be
`XID_Start` or `'_'`, and the remaining characters `XID_Continue`. -/
def isValidIdent (s : String) : Bool :=
  match s.data with
  | [] => false
  | c :: rest =>
    (isXidStart c || c == '_') && !(c == '_' && rest == []) &&
      rest.all isXidContinue

/-- Model of `syn::Ident::new` (a re-export of `proc_macro2::Ident::new`), which is
documented to panic when the string is not a legal identifier; the panic is
made explicit here. -/
def identNew (s : String) : GenResult String :=
  if isValidIdent s then .ok s
  else .panic ("\"" ++ s ++ "\" is not a valid Ident")

/-- Model of `ValueObject::get_internal_type` (src/src/value_object.rs lines 54-84):
reject enums, unions and unit structs, require exactly one field (named or
unnamed), and return the declared type of that field. -/
def ValueObject.get_internal_type (vo : ValueObject) : GenResult String :=
  match vo.struct_internals with
  | .enum_ => .error "Enum struct not supported"
  | .union_ => .error "Union struct not supported"
  | .struct_ struct_fields =>
    match struct_fields with
    | .named fields =>
      match fields with
      | [field] => .ok field.ty
      | _ => .error "Object value must contain only one field"
    | .unnamed fields =>
      match fields with
      | [field] => .ok field.ty
      | _ => .error "Object value must contain only one field"
    | .unit => .error "Empty structs does not supported"

/-- Model of `ValueObject::validate` (src/src/value_object.rs lines 46-52): reject
non-empty generics with a message embedding the identifier, then run
`get_internal_type` and discard its value. -/
def ValueObject.validate (vo : ValueObject) : GenResult Unit :=
  if !vo.generics.isEmpty then
    .error ("Generics not allowed in value-object `" ++ vo.ident ++ "`")
  else
    vo.get_internal_type.bind fun _ => .ok ()

/-- Model of `ValueObject::generate_serde` (src/src/value_object.rs lines 86-118):
if `serde_derive` (default true) is off, produce nothing; otherwise build an
identifier from `serde_crate` (default `"serde"`, panicking when malformed),
resolve the inner type and emit the serde `quote!` block. -/
def ValueObject.generate_serde (vo : ValueObject) : GenResult (List GenUnit) :=
  let serde_enable := vo.attributes.serde_derive.getD true
  if !serde_enable then .ok []
  else
    let serde_crate := vo.attributes.serde_crate.getD "serde"
    (identNew serde_crate).bind fun serde_crate_ident =>
      vo.get_internal_type.bind fun internal_type =>
        .ok [.serdeImpl serde_crate_ident vo.ident vo.attributes.load_fn
              internal_type]

/-- Model of `ValueObject::generate_display` (src/src/value_object.rs lines 120-136):
if `display_derive` (default true) is off, produce nothing; otherwise emit
the Display `quote!` block.  Note: no inner-type resolution happens here. -/
def ValueObject.generate_display (vo : ValueObject) : GenResult (List GenUnit) :=
  let display_derive_enabled := vo.attributes.display_derive.getD true
  if !display_derive_enabled then .ok []
  else .ok [.displayImpl vo.ident]

/-- Model of `ValueObject::generate_try_from` (src/src/value_object.rs lines 138-159):
if `try_from_derive` (default true) is off, produce nothing; otherwise
resolve the inner type and emit the TryFrom `quote!` block. -/
def ValueObject.generate_try_from (vo : ValueObject) : GenResult (List GenUnit) :=
  let try_from_derive_enabled := vo.attributes.try_from_derive.getD true
  if !try_from_derive_enabled then .ok []
  else
    vo.get_internal_type.bind fun internal_type =>
      .ok [.tryFromImpl internal_type vo.attributes.error_type vo.ident
            vo.attributes.load_fn]

/-- Model of `FROM_STR_DEFAULT_TYPES` (src/src/value_object.rs lines 162-168): the 17
rendered type names for which the parse unit is on by default. -/
def FROM_STR_DEFAULT_TYPES : List String :=
  ["bool", "char",
   "f32", "f64",
   "i8", "i16", "i32", "i64", "i128", "isize",
   "u8", "u16", "u32", "u64", "u128", "usize",
   "String"]

/-- Model of `ValueObject::generate_from_str` (src/src/value_object.rs lines 161-193):
resolve the inner type first, render it, default `from_str_derive` to
membership of the rendered name in `FROM_STR_DEFAULT_TYPES`, and when
enabled emit the FromStr `quote!` block. -/
def ValueObject.generate_from_str (vo : ValueObject) : GenResult (List GenUnit) :=
  vo.get_internal_type.bind fun internal_type =>
    let internal_type_str := internal_type
    let is_default_type := FROM_STR_DEFAULT_TYPES.contains internal_type_str
    let from_str_derive_enable := vo.attributes.from_str_derive.getD is_default_type
    if !from_str_derive_enable then .ok []
    else
      .ok [.fromStrImpl vo.ident vo.attributes.load_fn vo.attributes.error_type
            internal_type]

/-- Model of `ValueObject::generate` (src/src/value_object.rs lines 195-207): run the
four generators in order serde, display, try_from, from_str, short-circuit
on the first failure, and concatenate the produced token streams. -/
def ValueObject.generate (vo : ValueObject) : GenResult (List GenUnit) :=
  vo.generate_serde.bind fun serde_token =>
    vo.generate_display.bind fun display_token =>
      vo.generate_try_from.bind fun try_from_token =>
        vo.generate_from_str.bind fun from_str_token =>
          .ok (serde_token ++ display_token ++ try_from_token ++ from_str_token)

/-- Whether the first character list starts with the second. -/
def charsStartWith : List Char → List Char → Bool
  | _, [] => true
  | [], _ :: _ => false
  | a :: as, b :: bs => a == b && charsStartWith as bs

/-- Whether the second character list occurs contiguously in the first. -/
def charsContain (hay needle : List Char) : Bool :=
  match hay with
  | [] => needle.isEmpty
  | _ :: rest => charsStartWith hay needle || charsContain rest needle

/-- Whether `needle` occurs as a contiguous substring of `hay` (used to
state that a message does or does not mention a name). -/
def occursIn (needle hay : String) : Bool :=
  charsContain hay.data needle.data

/-- Attributes of a test-like configuration with every optional key unset. -/
def exAttrs : ValueObjectAttributes :=
  ⟨"ParseError", "Value::new", none, none, none, none, none⟩

/-- Same as `exAttrs` but with `serde_crate = "my-crate"`, a string that is
not a legal identifier. -/
def exAttrsBadCrate : ValueObjectAttributes :=
  ⟨"ParseError", "Value::new", none, some "my-crate", none, none, none⟩

/-- Same as `exAttrs` but with all four capability flags explicitly false. -/
def exAttrsAllOff : ValueObjectAttributes :=
  ⟨"ParseError", "Value::new", some false, none, some false, some false,
    some false⟩

/-- Eligible descriptor: tuple struct `Value(i32)`, all flags unset. -/
def exI32 : ValueObject :=
  ⟨"Value", exAttrs, [], .struct_ (.unnamed [⟨none, "i32"⟩])⟩

/-- Eligible descriptor: tuple struct `Value(MyCustomType)`. -/
def exCustom : ValueObject :=
  ⟨"Value", exAttrs, [], .struct_ (.unnamed [⟨none, "MyCustomType"⟩])⟩

/-- Ineligible descriptor: an enum named `Foo`. -/
def exEnum : ValueObject := ⟨"Foo", exAttrs, [], .enum_⟩

/-- Ineligible descriptor: tuple struct `Foo(u8, u8)` with two fields. -/
def exTwoFields : ValueObject :=
  ⟨"Foo", exAttrs, [],
    .struct_ (.unnamed [⟨none, "u8"⟩, ⟨none, "u8"⟩])⟩

/-- Descriptor with one generic parameter `T`. -/
def exGenerics : ValueObject :=
  ⟨"Value", exAttrs, ["T"], .struct_ (.unnamed [⟨none, "i32"⟩])⟩

/-- Eligible descriptor whose `serde_crate` is the malformed `"my-crate"`. -/
def exBadCrate : ValueObject :=
  ⟨"Value", exAttrsBadCrate, [], .struct_ (.unnamed [⟨none, "i32"⟩])⟩

/-- Enum descriptor with all four capability flags explicitly false. -/
def exAllOffEnum : ValueObject := ⟨"Foo", exAttrsAllOff, [], .enum_⟩

/-- Eligible descriptor whose `serde_crate` is the well-formed
`"my_serde"`. -/
def exValidCrate : ValueObject :=
  ⟨"Value",
    ⟨"ParseError", "Value::new", none, some "my_serde", none, none, none⟩,
    [], .struct_ (.unnamed [⟨none, "i32"⟩])⟩

/-- The function `get_internal_type` never panics: it only ever returns a value or a
darling error. -/
theorem get_internal_type_not_panic (vo : ValueObject) :
    vo.get_internal_type.isPanic = false := by
  rcases vo with ⟨ident, attrs, gens, data⟩
  rcases data with fs | _ | _
  · rcases fs with fields | fields | _
    · rcases fields with _ | ⟨f, _ | ⟨g, rest⟩⟩ <;> rfl
    · rcases fields with _ | ⟨f, _ | ⟨g, rest⟩⟩ <;> rfl
    · rfl
  · rfl
  · rfl

/-- The display generator never fails at all. -/
theorem generate_display_ok (vo : ValueObject) :
    vo.generate_display = GenResult.ok [] ∨
    vo.generate_display = GenResult.ok [GenUnit.displayImpl vo.ident] := by
  unfold ValueObject.generate_display
  rcases vo.attributes.display_derive.getD true with _ | _ <;> simp

/-- The try_from generator never panics. -/
theorem generate_try_from_not_panic (vo : ValueObject) :
    vo.generate_try_from.isPanic = false := by
  unfold ValueObject.generate_try_from
  have h := get_internal_type_not_panic vo
  rcases vo.attributes.try_from_derive.getD true with _ | _
  · rfl
  · rcases heq : vo.get_internal_type with t | e | m <;>
      simp_all [GenResult.bind, GenResult.isPanic]

/-- The from_str generator never panics. -/
theorem generate_from_str_not_panic (vo : ValueObject) :
    vo.generate_from_str.isPanic = false := by
  unfold ValueObject.generate_from_str
  have h := get_internal_type_not_panic vo
  rcases heq : vo.get_internal_type with t | e | m
  · simp only [GenResult.bind]
    rcases vo.attributes.from_str_derive.getD (FROM_STR_DEFAULT_TYPES.contains t)
      with _ | _ <;> simp [GenResult.isPanic]
  · rfl
  · rw [heq] at h
    simp [GenResult.isPanic] at h

/-- The serde generator never panics provided the configured namespace
(or its default `"serde"`) is a valid identifier. -/
theorem generate_serde_not_panic (vo : ValueObject)
    (hcrate : isValidIdent (vo.attributes.serde_crate.getD "serde") = true) :
    vo.generate_serde.isPanic = false := by
  unfold ValueObject.generate_serde
  have h := get_internal_type_not_panic vo
  rcases vo.attributes.serde_derive.getD true with _ | _
  · rfl
  · simp only [Bool.not_true, if_false, identNew, hcrate, if_true,
      GenResult.bind]
    rcases heq : vo.get_internal_type with t | e | m <;>
      simp_all [GenResult.bind, GenResult.isPanic]

/-- C5: for every descriptor with non-empty generics, `validate` fails with
the generics message embedding the descriptor's name, regardless of the
shape: the generics rule is checked first. -/
theorem c5_generics_checked_first (vo : ValueObject) (h : vo.generics ≠ []) :
    vo.validate =
      GenResult.error
        ("Generics not allowed in value-object `" ++ vo.ident ++ "`") := by
  rcases hg : vo.generics with _ | ⟨p, ps⟩
  · exact absurd hg h
  · simp [ValueObject.validate, hg]

/-- C5 witness: a generic enum-free descriptor with one parameter fails
with the generics message that names it. -/
theorem c5_generics_checked_first_witness :
    exGenerics.validate =
      GenResult.error ("Generics not allowed in value-object `" ++
        "Value" ++ "`") :=
  c5_generics_checked_first exGenerics (by decide)

/-- C6: for every descriptor that is a struct with exactly one field, named
or unnamed, `get_internal_type` succeeds and returns exactly the declared
type of that field. -/
theorem c6_resolve_returns_field_type (vo : ValueObject) (f : Field)
    (h : vo.struct_internals = Data.struct_ (Fields.named [f]) ∨
      vo.struct_internals = Data.struct_ (Fields.unnamed [f])) :
    vo.get_internal_type = GenResult.ok f.ty := by
  rcases h with h | h <;> simp [ValueObject.get_internal_type, h]

/-- C6 witness: the tuple struct wrapping `i32` resolves to `"i32"`. -/
theorem c6_resolve_returns_field_type_witness :
    exI32.get_internal_type = GenResult.ok "i32" :=
  c6_resolve_returns_field_type exI32 ⟨none, "i32"⟩ (Or.inr rfl)

/-- C3 counterexample: the two-unnamed-field struct named `Foo` fails as
predicted, but the message is a fixed string that mentions neither the
name `Foo` nor the field count `2`. -/
theorem c3_message_counterexample :
    exTwoFields.ident = "Foo" ∧
    exTwoFields.validate =
      GenResult.error "Object value must contain only one field" ∧
    occursIn "Foo" "Object value must contain only one field" = false ∧
    occursIn "2" "Object value must contain only one field" = false := by
  refine ⟨rfl, rfl, ?_, ?_⟩ <;> decide

/-- C3 (amended): only the generics failure message includes the
descriptor's name; a struct whose field list (named or unnamed) does not
have exactly one field makes `validate` fail with the fixed message
`Object value must contain only one field`, which mentions neither the
name nor the count. -/
theorem c3_fieldcount_message_fixed (vo : ValueObject) (fields : List Field)
    (hg : vo.generics = [])
    (hs : vo.struct_internals = Data.struct_ (Fields.named fields) ∨
      vo.struct_internals = Data.struct_ (Fields.unnamed fields))
    (hn : fields.length ≠ 1) :
    vo.validate =
      GenResult.error "Object value must contain only one field" := by
  have hty : vo.get_internal_type =
      GenResult.error "Object value must contain only one field" := by
    rcases fields with _ | ⟨f, _ | ⟨g, rest⟩⟩
    · rcases hs with hs | hs <;> simp [ValueObject.get_internal_type, hs]
    · simp at hn
    · rcases hs with hs | hs <;> simp [ValueObject.get_internal_type, hs]
  simp [ValueObject.validate, hg, hty, GenResult.bind]

/-- C3 witness: the two-unnamed-field struct `Foo(u8, u8)` gets the fixed
field-count message. -/
theorem c3_fieldcount_message_fixed_witness :
    exTwoFields.validate =
      GenResult.error "Object value must contain only one field" :=
  c3_fieldcount_message_fixed exTwoFields
    [⟨none, "u8"⟩, ⟨none, "u8"⟩] rfl (Or.inr rfl) (by decide)

/-- C8 counterexample: on the enum descriptor (ineligible), the display
generator — enabled by default — succeeds with a display unit instead of
returning a shape error: it does not re-derive field eligibility. -/
theorem c8_display_counterexample :
    exEnum.get_internal_type = GenResult.error "Enum struct not supported" ∧
    exEnum.attributes.display_derive = none ∧
    exEnum.generate_display = GenResult.ok [GenUnit.displayImpl "Foo"] :=
  ⟨rfl, rfl, rfl⟩

/-- C8 (amended): the serialization, conversion and parse generators each
independently re-derive field eligibility and, when enabled, return the
shape error on any ineligible descriptor; the display generator does not
resolve the inner type and succeeds with its unit even on an ineligible
descriptor. -/
theorem c8_generators_revalidate (vo : ValueObject) (e : String)
    (h : vo.get_internal_type = GenResult.error e)
    (hserde : vo.attributes.serde_derive.getD true = true)
    (hcrate : isValidIdent (vo.attributes.serde_crate.getD "serde") = true)
    (htf : vo.attributes.try_from_derive.getD true = true)
    (hdisp : vo.attributes.display_derive.getD true = true) :
    vo.generate_serde = GenResult.error e ∧
    vo.generate_try_from = GenResult.error e ∧
    vo.generate_from_str = GenResult.error e ∧
    vo.generate_display = GenResult.ok [GenUnit.displayImpl vo.ident] := by
  refine ⟨?_, ?_, ?_, ?_⟩
  · simp [ValueObject.generate_serde, hserde, identNew, hcrate, h,
      GenResult.bind]
  · simp [ValueObject.generate_try_from, htf, h, GenResult.bind]
  · simp [ValueObject.generate_from_str, h, GenResult.bind]
  · simp [ValueObject.generate_display, hdisp]

/-- C8 witness: on the enum descriptor with default flags, serde, try_from
and from_str each fail with the enum shape error while display succeeds. -/
theorem c8_generators_revalidate_witness :
    exEnum.generate_serde = GenResult.error "Enum struct not supported" ∧
    exEnum.generate_try_from = GenResult.error "Enum struct not supported" ∧
    exEnum.generate_from_str = GenResult.error "Enum struct not supported" ∧
    exEnum.generate_display = GenResult.ok [GenUnit.displayImpl "Foo"] :=
  c8_generators_revalidate exEnum "Enum struct not supported" rfl rfl
    (by decide) rfl rfl

/-- C10: on every ineligible descriptor, even with all four capability
flags explicitly false, the parse generator resolves the inner type before
consulting its flag, so it — and therefore `generate` invoked directly —
returns the shape error. -/
theorem c10_generate_fails_even_all_flags_off (vo : ValueObject) (e : String)
    (h : vo.get_internal_type = GenResult.error e)
    (hs : vo.attributes.serde_derive = some false)
    (hd : vo.attributes.display_derive = some false)
    (ht : vo.attributes.try_from_derive = some false)
    (hf : vo.attributes.from_str_derive = some false) :
    vo.generate_from_str = GenResult.error e ∧
    vo.generate = GenResult.error e := by
  have hfs : vo.generate_from_str = GenResult.error e := by
    simp [ValueObject.generate_from_str, h, GenResult.bind]
  refine ⟨hfs, ?_⟩
  simp [ValueObject.generate, ValueObject.generate_serde,
    ValueObject.generate_display, ValueObject.generate_try_from,
    hs, hd, ht, hf, hfs, GenResult.bind]

/-- C10 witness: the enum descriptor with all flags false still fails. -/
theorem c10_generate_fails_even_all_flags_off_witness :
    exAllOffEnum.generate_from_str =
      GenResult.error "Enum struct not supported" ∧
    exAllOffEnum.generate = GenResult.error "Enum struct not supported" :=
  c10_generate_fails_even_all_flags_off exAllOffEnum
    "Enum struct not supported" rfl rfl rfl rfl rfl

/-- The engine `generate` never panics when the configured namespace (or its default
`"serde"`) is a valid identifier. -/
theorem generate_not_panic (vo : ValueObject)
    (hcrate : isValidIdent (vo.attributes.serde_crate.getD "serde") = true) :
    vo.generate.isPanic = false := by
  unfold ValueObject.generate
  have h1 := generate_serde_not_panic vo hcrate
  have h2 := generate_display_ok vo
  have h3 := generate_try_from_not_panic vo
  have h4 := generate_from_str_not_panic vo
  rcases e1 : vo.generate_serde with a | e | m
  · rcases e2 : vo.generate_display with b | e | m
    · rcases e3 : vo.generate_try_from with c | e | m
      · rcases e4 : vo.generate_from_str with d | e | m
        · rfl
        · rfl
        · rw [e4] at h4
          simp [GenResult.isPanic] at h4
      · rfl
      · rw [e3] at h3
        simp [GenResult.isPanic] at h3
    · rfl
    · rcases h2 with h2 | h2 <;> rw [e2] at h2 <;> simp at h2
  · rfl
  · rw [e1] at h1
    simp [GenResult.isPanic] at h1

/-- C1: with `from_str_derive` unset the parse unit is emitted iff the
rendered inner type name is one of the 17 names in
`FROM_STR_DEFAULT_TYPES`; an explicit `true` forces the unit to be present
and an explicit `false` forces it to be absent, regardless of the name. -/
theorem c1_parse_default_policy (vo : ValueObject) (ty : String)
    (h : vo.get_internal_type = GenResult.ok ty) :
    (vo.attributes.from_str_derive = none →
      (vo.generate_from_str =
          GenResult.ok [GenUnit.fromStrImpl vo.ident vo.attributes.load_fn
            vo.attributes.error_type ty] ↔
        FROM_STR_DEFAULT_TYPES.contains ty = true)) ∧
    (vo.attributes.from_str_derive = some true →
      vo.generate_from_str =
        GenResult.ok [GenUnit.fromStrImpl vo.ident vo.attributes.load_fn
          vo.attributes.error_type ty]) ∧
    (vo.attributes.from_str_derive = some false →
      vo.generate_from_str = GenResult.ok []) := by
  refine ⟨?_, ?_, ?_⟩ <;> intro hflag
  · by_cases hc : FROM_STR_DEFAULT_TYPES.contains ty = true
    · simp [ValueObject.generate_from_str, h, GenResult.bind, hflag, hc]
    · simp only [Bool.not_eq_true] at hc
      simp [ValueObject.generate_from_str, h, GenResult.bind, hflag, hc]
  · simp [ValueObject.generate_from_str, h, GenResult.bind, hflag]
  · simp [ValueObject.generate_from_str, h, GenResult.bind, hflag]

/-- C1 witness: `Value(i32)` with the flag unset gets the parse unit, since
`"i32"` is a default name. -/
theorem c1_parse_default_policy_witness :
    exI32.generate_from_str =
      GenResult.ok [GenUnit.fromStrImpl "Value" "Value::new" "ParseError"
        "i32"] :=
  ((c1_parse_default_policy exI32 "i32" rfl).1 rfl).mpr (by decide)

/-- C2 counterexample: an eligible descriptor with all four capability
flags unset whose serialization namespace is the malformed string
`"my-crate"`: `generate` does not succeed — it panics. -/
theorem c2_generate_counterexample :
    exBadCrate.generics = [] ∧
    exBadCrate.get_internal_type = GenResult.ok "i32" ∧
    exBadCrate.attributes.serde_derive = none ∧
    exBadCrate.attributes.display_derive = none ∧
    exBadCrate.attributes.try_from_derive = none ∧
    exBadCrate.attributes.from_str_derive = none ∧
    exBadCrate.generate =
      GenResult.panic "\"my-crate\" is not a valid Ident" :=
  ⟨rfl, rfl, rfl, rfl, rfl, rfl, by decide⟩

/-- C2 (amended): for every eligible descriptor whose configured namespace
(or its default `"serde"`) is a well-formed identifier, with all four
capability flags unset, `generate` succeeds with exactly one unit per
default-enabled capability, in the fixed order serialization, display,
conversion, parse. -/
theorem c2_generate_default_units (vo : ValueObject) (ty : String)
    (hg : vo.generics = [])
    (h : vo.get_internal_type = GenResult.ok ty)
    (hs : vo.attributes.serde_derive = none)
    (hd : vo.attributes.display_derive = none)
    (ht : vo.attributes.try_from_derive = none)
    (hf : vo.attributes.from_str_derive = none)
    (hcrate : isValidIdent (vo.attributes.serde_crate.getD "serde") = true) :
    vo.generate =
      GenResult.ok
        ([GenUnit.serdeImpl (vo.attributes.serde_crate.getD "serde") vo.ident
            vo.attributes.load_fn ty,
          GenUnit.displayImpl vo.ident,
          GenUnit.tryFromImpl ty vo.attributes.error_type vo.ident
            vo.attributes.load_fn] ++
          if FROM_STR_DEFAULT_TYPES.contains ty = true then
            [GenUnit.fromStrImpl vo.ident vo.attributes.load_fn
              vo.attributes.error_type ty]
          else []) := by
  have hserde : vo.generate_serde = GenResult.ok
      [GenUnit.serdeImpl (vo.attributes.serde_crate.getD "serde") vo.ident
        vo.attributes.load_fn ty] := by
    simp [ValueObject.generate_serde, hs, identNew, hcrate, h, GenResult.bind]
  have hdisp : vo.generate_display =
      GenResult.ok [GenUnit.displayImpl vo.ident] := by
    simp [ValueObject.generate_display, hd]
  have htfr : vo.generate_try_from = GenResult.ok
      [GenUnit.tryFromImpl ty vo.attributes.error_type vo.ident
        vo.attributes.load_fn] := by
    simp [ValueObject.generate_try_from, ht, h, GenResult.bind]
  by_cases hc : FROM_STR_DEFAULT_TYPES.contains ty = true
  · have hm : ty ∈ FROM_STR_DEFAULT_TYPES := List.mem_of_elem_eq_true hc
    have hfs : vo.generate_from_str = GenResult.ok
        [GenUnit.fromStrImpl vo.ident vo.attributes.load_fn
          vo.attributes.error_type ty] := by
      simp [ValueObject.generate_from_str, hf, h, GenResult.bind, hc, hm]
    simp [ValueObject.generate, hserde, hdisp, htfr, hfs, GenResult.bind,
      hc, hm]
  · simp only [Bool.not_eq_true] at hc
    have hm : ty ∉ FROM_STR_DEFAULT_TYPES := by
      intro hmem
      have hT : FROM_STR_DEFAULT_TYPES.contains ty = true :=
        List.elem_eq_true_of_mem hmem
      rw [hT] at hc
      exact absurd hc (by decide)
    have hfs : vo.generate_from_str = GenResult.ok [] := by
      simp [ValueObject.generate_from_str, hf, h, GenResult.bind, hc, hm]
    simp [ValueObject.generate, hserde, hdisp, htfr, hfs, GenResult.bind,
      hc, hm]

/-- C2 witness: `Value(i32)` with everything unset yields the four units in
order serialization, display, conversion, parse. -/
theorem c2_generate_default_units_witness :
    exI32.generate =
      GenResult.ok
        [GenUnit.serdeImpl "serde" "Value" "Value::new" "i32",
         GenUnit.displayImpl "Value",
         GenUnit.tryFromImpl "i32" "ParseError" "Value" "Value::new",
         GenUnit.fromStrImpl "Value" "Value::new" "ParseError" "i32"] := by
  exact c2_generate_default_units exI32 "i32" rfl rfl rfl rfl rfl rfl
    (by decide)

/-- C4 counterexample: with the malformed namespace `"my-crate"` the
serialization generator — and hence the engine — aborts with a panic, a
runtime fault rather than an ordinary returned error: the namespace string
is in fact validated when the identifier is constructed from it. -/
theorem c4_panic_counterexample :
    exBadCrate.generate_serde =
      GenResult.panic "\"my-crate\" is not a valid Ident" ∧
    exBadCrate.generate =
      GenResult.panic "\"my-crate\" is not a valid Ident" := by
  constructor <;> decide

/-- C4 (amended): whenever the configured namespace (or its default
`"serde"`) is a well-formed identifier, the engine never produces a
runtime fault — every failure is an ordinary error value — and the
namespace string is spliced verbatim into the serialization unit; a
malformed namespace, by contrast, panics inside identifier construction. -/
theorem c4_no_fault_when_namespace_wellformed (vo : ValueObject)
    (hcrate : isValidIdent (vo.attributes.serde_crate.getD "serde") = true) :
    (∀ m, vo.generate ≠ GenResult.panic m) ∧
    (∀ s ty, vo.attributes.serde_crate = some s →
      vo.attributes.serde_derive.getD true = true →
      vo.get_internal_type = GenResult.ok ty →
      vo.generate_serde =
        GenResult.ok [GenUnit.serdeImpl s vo.ident vo.attributes.load_fn
          ty]) := by
  constructor
  · intro m hm
    have hp := generate_not_panic vo hcrate
    rw [hm] at hp
    simp [GenResult.isPanic] at hp
  · intro s ty hs hd hty
    have hval : isValidIdent s = true := by
      rw [hs] at hcrate
      simpa using hcrate
    simp [ValueObject.generate_serde, hd, hs, identNew, hval, hty,
      GenResult.bind]

/-- C4 witness: with namespace `"my_serde"` (well-formed) on the `i32`
wrapper, the engine cannot panic and the serde unit carries the namespace
verbatim. -/
theorem c4_no_fault_when_namespace_wellformed_witness :
    (∀ m, exValidCrate.generate ≠ GenResult.panic m) ∧
    exValidCrate.generate_serde =
      GenResult.ok [GenUnit.serdeImpl "my_serde" "Value" "Value::new"
        "i32"] := by
  have h := c4_no_fault_when_namespace_wellformed exValidCrate (by decide)
  exact ⟨h.1, h.2 "my_serde" "i32" rfl rfl rfl⟩

/-- C7: `generate` is all-or-nothing with first-error-wins: either all four
generators succeed and the result is the concatenation of their units in
order, or the result is exactly the failure of the first generator that
does not succeed. -/
theorem c7_generate_all_or_nothing (vo : ValueObject) :
    (∃ a b c d, vo.generate_serde = GenResult.ok a ∧
      vo.generate_display = GenResult.ok b ∧
      vo.generate_try_from = GenResult.ok c ∧
      vo.generate_from_str = GenResult.ok d ∧
      vo.generate = GenResult.ok (a ++ b ++ c ++ d)) ∨
    (vo.generate_serde.isOk = false ∧ vo.generate = vo.generate_serde) ∨
    (vo.generate_serde.isOk = true ∧ vo.generate_display.isOk = false ∧
      vo.generate = vo.generate_display) ∨
    (vo.generate_serde.isOk = true ∧ vo.generate_display.isOk = true ∧
      vo.generate_try_from.isOk = false ∧
      vo.generate = vo.generate_try_from) ∨
    (vo.generate_serde.isOk = true ∧ vo.generate_display.isOk = true ∧
      vo.generate_try_from.isOk = true ∧
      vo.generate_from_str.isOk = false ∧
      vo.generate = vo.generate_from_str) := by
  unfold ValueObject.generate
  rcases e1 : vo.generate_serde with a | e | m
  · rcases e2 : vo.generate_display with b | e | m
    · rcases e3 : vo.generate_try_from with c | e | m
      · rcases e4 : vo.generate_from_str with d | e | m
        · exact Or.inl ⟨a, b, c, d, rfl, rfl, rfl, rfl, rfl⟩
        · exact Or.inr (Or.inr (Or.inr (Or.inr ⟨rfl, rfl, rfl, rfl, rfl⟩)))
        · exact Or.inr (Or.inr (Or.inr (Or.inr ⟨rfl, rfl, rfl, rfl, rfl⟩)))
      · exact Or.inr (Or.inr (Or.inr (Or.inl ⟨rfl, rfl, rfl, rfl⟩)))
      · exact Or.inr (Or.inr (Or.inr (Or.inl ⟨rfl, rfl, rfl, rfl⟩)))
    · exact Or.inr (Or.inr (Or.inl ⟨rfl, rfl, rfl⟩))
    · exact Or.inr (Or.inr (Or.inl ⟨rfl, rfl, rfl⟩))
  · exact Or.inr (Or.inl ⟨rfl, rfl⟩)
  · exact Or.inr (Or.inl ⟨rfl, rfl⟩)

/-- C9: the engine is deterministic — structurally identical descriptor
and options give structurally identical results (same ordered unit list or
same failure), since `generate` is a pure function of its input. -/
theorem c9_generate_deterministic (vo1 vo2 : ValueObject) (h : vo1 = vo2) :
    vo1.generate = vo2.generate := by rw [h]

/-- C9 witness: two invocations on the `i32` wrapper agree. -/
theorem c9_generate_deterministic_witness :
    exI32.generate = exI32.generate :=
  c9_generate_deterministic exI32 exI32 rfl

end DeriveValueObject
